import Mathlib

/-!
Shallow embedding of `src/node_modules/parcel-plugin-compress/index.js`,
the post-build asset compression pipeline: configuration defaults and
merging, the per-(file, codec) compression tasks `gzipCompress` and
`brotliCompress`, the Brotli native parameter block construction, the
directory-walk file discovery generator, the scheduler's concurrency
bound, and the module-level outcome list handed to the reporter.

External collaborators (the file system, the codec libraries, wall-clock
time) are passed in explicitly: a `TaskEnv` carries the results the file
system gives one task, and the codec libraries are function parameters.
-/

namespace ParcelPluginCompress

/-- The zlib constant `Z_BEST_COMPRESSION` (value 9), used by the gzip
defaults for `zlibLevel` and `zlibMemLevel`. -/
def Z_BEST_COMPRESSION : Nat := 9

/-- The zlib constant `BROTLI_MODE_GENERIC`. -/
def BROTLI_MODE_GENERIC : Int := 0

/-- The zlib constant `BROTLI_MODE_TEXT`. -/
def BROTLI_MODE_TEXT : Int := 1

/-- The zlib constant `BROTLI_MODE_FONT`. -/
def BROTLI_MODE_FONT : Int := 2

/-- The gzip sub-configuration as `gzipCompress` receives it.  JS object
fields that may be absent or `undefined` are `Option`s; the source only
ever tests `threshold` for truthiness, where `undefined` and a missing key
behave alike, so both are `none`. -/
structure GzipConfig where
  enabled : Bool
  numiterations : Nat
  blocksplitting : Bool
  blocksplittinglast : Bool
  blocksplittingmax : Nat
  zlib : Bool
  zlibLevel : Nat
  zlibMemLevel : Nat
  threshold : Option Nat
  deriving Repr, DecidableEq

/-- The brotli sub-configuration as `brotliCompress` receives it.  `mode`
and `enable_context_modeling` are `Option`s because the source compares
them with strict equality (`=== 1`, `=== 2`, `=== false`) and an absent
field must not compare equal to any present value. -/
structure BrotliConfig where
  enabled : Bool
  mode : Option Int
  quality : Nat
  lgwin : Nat
  enable_context_modeling : Option Bool
  threshold : Option Nat
  lgblock : Option Nat
  nPostfix : Option Nat
  nDirect : Option Nat
  deriving Repr, DecidableEq

/-- The top-level `defaultOptions` object of the source (lines 14-36).
Its `gzip` sub-object carries no `threshold` key, hence `none`. -/
structure DefaultOptions where
  test : String
  compressOutput : Bool
  threshold : Option Nat
  concurrency : Nat
  gzip : GzipConfig
  brotli : BrotliConfig
  deriving Repr, DecidableEq

/-- The source's `defaultOptions` value. -/
def defaultOptions : DefaultOptions :=
  { test := "."
    compressOutput := false
    threshold := none
    concurrency := 2
    gzip :=
      { enabled := true
        numiterations := 15
        blocksplitting := true
        blocksplittinglast := false
        blocksplittingmax := 15
        zlib := false
        zlibLevel := Z_BEST_COMPRESSION
        zlibMemLevel := Z_BEST_COMPRESSION
        threshold := none }
    brotli :=
      { enabled := true
        mode := some 0
        quality := 11
        lgwin := 24
        enable_context_modeling := some true
        threshold := none
        lgblock := none
        nPostfix := none
        nDirect := none } }

/-- Truthiness of an optional JS number: `undefined` and `0` are falsy,
every other natural number is truthy. -/
def truthyNum : Option Nat → Bool
  | none => false
  | some n => n != 0

/-- The threshold gate shared by both tasks, the condition of
`if (config.threshold && stat.size < config.threshold)`: skip the file
when `threshold` is truthy and the file size is strictly below it. -/
def thresholdSkips (threshold : Option Nat) (size : Nat) : Bool :=
  match threshold with
  | none => false
  | some t => t != 0 && size < t

/-- One element pushed onto the module-level `output` array:
`{ size, file, time }` with `file` already carrying the `.gz`/`.br`
suffix. -/
structure CompressionOutcome where
  size : Nat
  file : String
  time : Nat
  deriving Repr, DecidableEq

/-- Result of the promise a task returns. -/
inductive PromiseResult where
  | resolved
  | rejected
  deriving Repr, DecidableEq

/-- What the file system gives one task: the `fs.statSync` result (`none`
when it throws), the `fs.readFile` result, whether the `fs.writeFile`
call (if any) succeeds, and the wall-clock instants read at task start
and at write completion. -/
structure FileStat where
  isFile : Bool
  size : Nat
  deriving Repr, DecidableEq

/-- See `FileStat`. -/
structure TaskEnv where
  stat : Option FileStat
  readResult : Except Unit (List Nat)
  writeSucceeds : Bool
  startTime : Nat
  endTime : Nat

/-- Observable effects of one task: how its promise settles, the outcome
it pushes onto the shared `output` list (if any), whether it called
`fs.writeFile`, and whether the artifact actually landed on disk. -/
structure TaskEffects where
  result : PromiseResult
  outcome : Option CompressionOutcome
  writeAttempted : Bool
  artifactWritten : Bool
  deriving Repr, DecidableEq

/-- Effects of a task that resolves without doing anything. -/
def noTaskEffects : TaskEffects :=
  { result := .resolved, outcome := none, writeAttempted := false, artifactWritten := false }

/-- The inner `handleCompressedData(resolve, reject, err, compressedContent)`
of `gzipCompress` (source lines 141-157).  On a codec error the promise is
rejected.  When the original size is strictly greater than the compressed
length, `fs.writeFile` is called; its callback ignores the error argument,
pushes the outcome and resolves, so the outcome is recorded and the task
resolves whether or not the write succeeded — only the artifact's presence
on disk depends on `writeSucceeds`.  Otherwise the task resolves with no
write and no outcome. -/
def handleCompressedData (stat : FileStat) (file : String) (start endT : Nat)
    (writeSucceeds : Bool) : Except Unit (List Nat) → TaskEffects
  | .error _ => { noTaskEffects with result := .rejected }
  | .ok compressedContent =>
    if stat.size > compressedContent.length then
      { result := .resolved
        outcome := some { size := compressedContent.length, file := file ++ ".gz", time := endT - start }
        writeAttempted := true
        artifactWritten := writeSucceeds }
    else
      noTaskEffects

/-- The `gzipCompress(file, config)` task (source lines 105-158).
`zlibGzip` stands for the external `zlib.gzip(content, {level, memLevel})`
encoder and `zopfliGzip` for the external `zopfli.gzip(content, config)`
encoder; both are treated as pure bytes-to-bytes functions that may fail,
exactly as the spec classifies the codec libraries. -/
def gzipCompress (file : String) (config : GzipConfig)
    (zlibGzip : List Nat → Nat → Nat → Except Unit (List Nat))
    (zopfliGzip : List Nat → GzipConfig → Except Unit (List Nat))
    (env : TaskEnv) : TaskEffects :=
  if !config.enabled then noTaskEffects
  else
    match env.stat with
    | none => noTaskEffects
    | some stat =>
      if !stat.isFile then noTaskEffects
      else if thresholdSkips config.threshold stat.size then noTaskEffects
      else
        match env.readResult with
        | .error _ => { noTaskEffects with result := .rejected }
        | .ok content =>
          handleCompressedData stat file env.startTime env.endTime env.writeSucceeds
            (if config.zlib then zlibGzip content config.zlibLevel config.zlibMemLevel
             else zopfliGzip content config)

/-- The Brotli native parameter block built under `if (brotli.isZlib)`
(source lines 183-212).  Optional parameters carry `none` when their key
is absent from the object. -/
structure BrotliParams where
  mode : Int
  quality : Nat
  sizeHint : Nat
  lgwin : Nat
  disableLiteralContextModeling : Bool
  lgblock : Option Nat
  nPostfix : Option Nat
  nDirect : Option Nat
  deriving Repr, DecidableEq

/-- The object the source assigns to `config` at lines 194-202: it has a
single `params` key, so reading `lgblock`, `nPostfix` or `nDirect` on it
yields `undefined` (`none`). -/
structure BrotliNativeConfig where
  params : BrotliParams
  lgblock : Option Nat := none
  nPostfix : Option Nat := none
  nDirect : Option Nat := none
  deriving Repr, DecidableEq

/-- Source lines 183-212: map the generic Brotli settings to the native
parameter block.  The source reassigns the name `config` to the new
`{ params: ... }` object and only then tests `config.lgblock`,
`config.nPostfix` and `config.nDirect`; the shadowing `let config`
bindings below reproduce that order of evaluation exactly. -/
def brotliNativeConfig (config : BrotliConfig) (statSize : Nat) : BrotliNativeConfig :=
  let brotliMode : Int :=
    if config.mode = some 1 then BROTLI_MODE_TEXT
    else if config.mode = some 2 then BROTLI_MODE_FONT
    else BROTLI_MODE_GENERIC
  let config : BrotliNativeConfig :=
    { params :=
        { mode := brotliMode
          quality := config.quality
          sizeHint := statSize
          lgwin := config.lgwin
          disableLiteralContextModeling := config.enable_context_modeling = some false
          lgblock := none
          nPostfix := none
          nDirect := none } }
  let config :=
    if truthyNum config.lgblock then
      { config with params := { config.params with lgblock := config.lgblock } }
    else config
  let config :=
    if truthyNum config.nPostfix then
      { config with params := { config.params with nPostfix := config.nPostfix } }
    else config
  let config :=
    if truthyNum config.nDirect then
      { config with params := { config.params with nDirect := config.nDirect } }
    else config
  config

/-- The configuration value handed to `brotli.compress`: the incoming
config unchanged when the adapter is not zlib-backed, the rebuilt native
parameter block when it is. -/
inductive BrotliCallConfig where
  | raw (config : BrotliConfig)
  | native (config : BrotliNativeConfig)

/-- The `brotliCompress(file, config)` task (source lines 160-235).
`isZlib` is the external adapter's `brotli.isZlib` flag and `compress`
stands for the external `brotli.compress(content, config)`, which returns
`null` (`none`) on failure. -/
def brotliCompress (file : String) (config : BrotliConfig) (isZlib : Bool)
    (compress : List Nat → BrotliCallConfig → Option (List Nat))
    (env : TaskEnv) : TaskEffects :=
  if !config.enabled then noTaskEffects
  else
    match env.stat with
    | none => noTaskEffects
    | some stat =>
      if !stat.isFile then noTaskEffects
      else if thresholdSkips config.threshold stat.size then noTaskEffects
      else
        let callConfig : BrotliCallConfig :=
          if isZlib then .native (brotliNativeConfig config stat.size) else .raw config
        match env.readResult with
        | .error _ => { noTaskEffects with result := .rejected }
        | .ok content =>
          match compress content callConfig with
          | none => noTaskEffects
          | some compressedContent =>
            if stat.size > compressedContent.length then
              { result := .resolved
                outcome := some { size := compressedContent.length, file := file ++ ".br", time := env.endTime - env.startTime }
                writeAttempted := true
                artifactWritten := env.writeSucceeds }
            else
              noTaskEffects

/-! ## File discovery: the directory-walk generator (source lines 54-72) -/

/-- What `fs.statSync` reports for a path during the walk: a regular file,
a directory, or a thrown error. -/
inductive EntryKind where
  | fileK
  | dirK
  | statErr
  deriving Repr, DecidableEq

/-- The file system as the walk sees it: `listing dir` is the
`fs.readdirSync(dir)` result (`none` when it throws) and `kind f` the
`fs.statSync(f)` result. -/
structure FileSys where
  listing : String → Option (List String)
  kind : String → EntryKind

/-- The `path.join(dir, file)` of the walk. -/
def pathJoin (dir file : String) : String := dir ++ "/" ++ file

/-- The loop body of the `filesToCompress` generator over one directory's
entries.  `walkRec` is the recursive call on a sub-directory.  The result
pairs the paths yielded so far with whether the generator threw.  A
sub-directory's recursion sits inside `try { yield* ... } catch { continue }`:
paths it yielded before an error are already delivered and the error is
swallowed, so a recursive error never sets the thrown flag here.  A
`fs.statSync` error on an entry of this directory is not caught at this
level and aborts the generator after the paths already yielded. -/
def walkLoop (fsys : FileSys) (test : String → Bool)
    (walkRec : String → List String × Bool) (dir : String) :
    List String → List String × Bool
  | [] => ([], false)
  | file :: rest =>
    let f := pathJoin dir file
    match fsys.kind f with
    | .statErr => ([], true)
    | .dirK =>
      let sub := (walkRec f).1
      let tail := walkLoop fsys test walkRec dir rest
      (sub ++ tail.1, tail.2)
    | .fileK =>
      let here := if test f then [f] else []
      let tail := walkLoop fsys test walkRec dir rest
      (here ++ tail.1, tail.2)

/-- The `filesToCompress` generator of the directory-walk mode, consumed
eagerly by the `[...filesToCompress(input)]` spread.  `fuel` bounds the
recursion depth; exhausting it models the stack-overflow throw of an
unbounded recursion, and a `fs.readdirSync` throw on `dir` itself also
surfaces as a thrown flag — both are caught by the caller's `try` only
when they happen inside a sub-directory's `yield*`. -/
def filesToCompress (fsys : FileSys) (test : String → Bool) :
    Nat → String → List String × Bool
  | 0, _ => ([], true)
  | fuel + 1, dir =>
    match fsys.listing dir with
    | none => ([], true)
    | some files => walkLoop fsys test (filesToCompress fsys test fuel) dir files

/-! ## Configuration resolution and merging (source lines 46-89) -/

/-- A discovered gzip sub-config: every field optional, `none` meaning the
key is absent so the spread `...gzip` leaves the earlier value. -/
structure GzipUserConfig where
  enabled : Option Bool := none
  numiterations : Option Nat := none
  blocksplitting : Option Bool := none
  blocksplittinglast : Option Bool := none
  blocksplittingmax : Option Nat := none
  zlib : Option Bool := none
  zlibLevel : Option Nat := none
  zlibMemLevel : Option Nat := none
  threshold : Option Nat := none
  deriving Repr, DecidableEq

/-- A discovered brotli sub-config, same conventions as `GzipUserConfig`. -/
structure BrotliUserConfig where
  enabled : Option Bool := none
  mode : Option Int := none
  quality : Option Nat := none
  lgwin : Option Nat := none
  enable_context_modeling : Option Bool := none
  threshold : Option Nat := none
  lgblock : Option Nat := none
  nPostfix : Option Nat := none
  nDirect : Option Nat := none
  deriving Repr, DecidableEq

/-- JS object spread `{ ...base, ...user }` for the gzip shape: a key the
user object carries overrides the base value. -/
def gzipSpread (base : GzipConfig) (user : GzipUserConfig) : GzipConfig :=
  { enabled := user.enabled.getD base.enabled
    numiterations := user.numiterations.getD base.numiterations
    blocksplitting := user.blocksplitting.getD base.blocksplitting
    blocksplittinglast := user.blocksplittinglast.getD base.blocksplittinglast
    blocksplittingmax := user.blocksplittingmax.getD base.blocksplittingmax
    zlib := user.zlib.getD base.zlib
    zlibLevel := user.zlibLevel.getD base.zlibLevel
    zlibMemLevel := user.zlibMemLevel.getD base.zlibMemLevel
    threshold := match user.threshold with | some t => some t | none => base.threshold }

/-- JS object spread `{ ...base, ...user }` for the brotli shape. -/
def brotliSpread (base : BrotliConfig) (user : BrotliUserConfig) : BrotliConfig :=
  { enabled := user.enabled.getD base.enabled
    mode := match user.mode with | some v => some v | none => base.mode
    quality := user.quality.getD base.quality
    lgwin := user.lgwin.getD base.lgwin
    enable_context_modeling :=
      match user.enable_context_modeling with
      | some v => some v | none => base.enable_context_modeling
    threshold := match user.threshold with | some t => some t | none => base.threshold
    lgblock := match user.lgblock with | some v => some v | none => base.lgblock
    nPostfix := match user.nPostfix with | some v => some v | none => base.nPostfix
    nDirect := match user.nDirect with | some v => some v | none => base.nDirect }

/-- Source line 87, `{ ...defaultOptions.gzip, threshold, ...gzip }`: the
defaults first, then the `threshold` shorthand (which always inserts the
key, its value possibly `undefined`), then the discovered `gzip`
sub-config spread last. -/
def gzipCallConfig (threshold : Option Nat) (gzip : GzipUserConfig) : GzipConfig :=
  gzipSpread { defaultOptions.gzip with threshold := threshold } gzip

/-- Source line 88, `{ ...defaultOptions.brotli, threshold, ...brotli }`. -/
def brotliCallConfig (threshold : Option Nat) (brotli : BrotliUserConfig) : BrotliConfig :=
  brotliSpread { defaultOptions.brotli with threshold := threshold } brotli

/-- Stated from the claim (C5), not from the source: layered merge with
precedence built-in defaults < discovered config < threshold passed at
the call site, so the call-site `threshold` wins over a `threshold` in the
discovered sub-config. -/
def gzipCallConfigClaimed (threshold : Option Nat) (gzip : GzipUserConfig) : GzipConfig :=
  { gzipSpread defaultOptions.gzip gzip with threshold := threshold }

/-- What the external configuration source may supply (the object behind
`explorer.search()`, shaped like `defaultOptions`); every field optional. -/
structure ExternalConfig where
  test : Option String := none
  compressOutput : Option Bool := none
  threshold : Option Nat := none
  concurrency : Option Nat := none
  gzip : Option GzipUserConfig := none
  brotli : Option BrotliUserConfig := none

/-- Source line 85, `new pQueue({ concurrency: defaultOptions.concurrency })`:
the bound handed to the scheduler.  The destructuring at line 48 reads
only `gzip, brotli, test, threshold, compressOutput` from the search
result, so the discovered configuration never reaches this value. -/
def queueConcurrency (searchResult : Option ExternalConfig) : Nat :=
  let _ := searchResult
  defaultOptions.concurrency

/-- Stated from the claim (C2), not from the source: the scheduler bound
is the resolved configuration's `concurrency` — the externally supplied
value when the source is found and supplies one, the documented default
otherwise. -/
def resolvedConcurrencyClaimed (searchResult : Option ExternalConfig) : Nat :=
  match searchResult with
  | some config => config.concurrency.getD defaultOptions.concurrency
  | none => defaultOptions.concurrency

/-! ## The module-level outcome list (source lines 38 and 91-98) -/

/-- Effect of one `bundled` run on the module-level `let output = []`
list: the run's tasks push their outcomes onto whatever the list already
holds, and nothing ever clears it.  The returned list is also the
collection handed to the reporter at line 94
(`output.sort(sortResults).map(formatResults)` sorts `output` itself). -/
def runOutput (output : List CompressionOutcome) (produced : List CompressionOutcome) :
    List CompressionOutcome :=
  output ++ produced

/-- The module-level `output` list after a sequence of runs in one
process, starting from the initial `[]`. -/
def outputAfterRuns (runs : List (List CompressionOutcome)) : List CompressionOutcome :=
  runs.foldl runOutput []

/-! ## Concrete instances used by witnesses and counterexamples -/

/-- A brotli config supplying all three optional advanced parameters. -/
def brotliAdvanced : BrotliConfig :=
  { defaultOptions.brotli with lgblock := some 5, nPostfix := some 2, nDirect := some 8 }

/-- A gzip config with a configured threshold of 10 bytes. -/
def gzipThreshold10 : GzipConfig := { defaultOptions.gzip with threshold := some 10 }

/-- A brotli config with a configured threshold of 10 bytes. -/
def brotliThreshold10 : BrotliConfig := { defaultOptions.brotli with threshold := some 10 }

/-- A gzip config with threshold 0 (falsy in JS). -/
def gzipThreshold0 : GzipConfig := { defaultOptions.gzip with threshold := some 0 }

/-- A brotli config with threshold 0 (falsy in JS). -/
def brotliThreshold0 : BrotliConfig := { defaultOptions.brotli with threshold := some 0 }

/-- A stand-in zlib gzip encoder returning three bytes. -/
def zlibGzipW : List Nat → Nat → Nat → Except Unit (List Nat) := fun _ _ _ => .ok [9, 9, 9]

/-- A stand-in zopfli gzip encoder returning three bytes. -/
def zopfliGzipW : List Nat → GzipConfig → Except Unit (List Nat) := fun _ _ => .ok [9, 9, 9]

/-- A stand-in brotli encoder returning two bytes. -/
def brotliCompressW : List Nat → BrotliCallConfig → Option (List Nat) := fun _ _ => some [9, 9]

/-- An environment for a 4-byte regular file whose write fails. -/
def envWriteFail : TaskEnv :=
  { stat := some ⟨true, 4⟩, readResult := .ok [0, 1, 2], writeSucceeds := false
    startTime := 10, endTime := 25 }

/-- An environment for a 4-byte regular file whose read fails. -/
def envReadErr : TaskEnv :=
  { stat := some ⟨true, 4⟩, readResult := .error (), writeSucceeds := true
    startTime := 0, endTime := 0 }

/-- An environment for an empty regular file whose read fails. -/
def envEmptyReadErr : TaskEnv :=
  { stat := some ⟨true, 0⟩, readResult := .error (), writeSucceeds := true
    startTime := 0, endTime := 0 }

/-- An environment for a 5-byte regular file. -/
def envSmall : TaskEnv :=
  { stat := some ⟨true, 5⟩, readResult := .ok [0], writeSucceeds := true
    startTime := 0, endTime := 0 }

/-- An environment for a 10-byte regular file whose read fails. -/
def envTen : TaskEnv :=
  { stat := some ⟨true, 10⟩, readResult := .error (), writeSucceeds := true
    startTime := 0, endTime := 0 }

/-- An environment for a 2-byte regular file, smaller than every stand-in
codec output. -/
def envTiny : TaskEnv :=
  { stat := some ⟨true, 2⟩, readResult := .ok [0, 1], writeSucceeds := true
    startTime := 0, endTime := 0 }

/-- A file system for the walk witness: the output directory `out` holds
`a.js`, an unreadable sub-directory `sub`, and `b.txt`. -/
def fsysW : FileSys :=
  { listing := fun d => if d = "out" then some ["a.js", "sub", "b.txt"] else none
    kind := fun f => if f = "out/sub" then .dirK else .fileK }

/-- The walk witness's `testPattern`: a pattern that `out/a.js` matches
and no other path of `fsysW` does. -/
def testW : String → Bool := fun f => f == "out/a.js"

/-- An external configuration supplying `concurrency: 5`. -/
def externalFive : ExternalConfig := { concurrency := some 5 }

/-- An outcome produced by a first run. -/
def outcomeA : CompressionOutcome := { size := 10, file := "a.js.gz", time := 5 }

/-- An outcome produced by a second run. -/
def outcomeB : CompressionOutcome := { size := 20, file := "b.js.br", time := 7 }

/-- A discovered gzip sub-config carrying its own `threshold: 50`. -/
def gzipUserFifty : GzipUserConfig := { threshold := some 50 }

/-! ## Helper lemmas -/

/-- Reduced form of the native parameter block: because the source tests
`config.lgblock`, `config.nPostfix` and `config.nDirect` only after
reassigning `config` to the fresh `{ params: ... }` object, those three
tests always read `undefined` and the optional parameters never enter
`params`. -/
lemma brotliNativeConfig_eq (config : BrotliConfig) (statSize : Nat) :
    brotliNativeConfig config statSize =
      { params :=
          { mode := if config.mode = some 1 then BROTLI_MODE_TEXT
                    else if config.mode = some 2 then BROTLI_MODE_FONT
                    else BROTLI_MODE_GENERIC
            quality := config.quality
            sizeHint := statSize
            lgwin := config.lgwin
            disableLiteralContextModeling := config.enable_context_modeling = some false
            lgblock := none
            nPostfix := none
            nDirect := none } } := rfl

/-- Every path the walk loop yields over one directory's entries matches
the pattern, provided recursive calls only yield matching paths. -/
lemma walkLoop_yields_match (fsys : FileSys) (test : String → Bool)
    (walkRec : String → List String × Bool) (dir : String)
    (hrec : ∀ f p, p ∈ (walkRec f).1 → test p = true) :
    ∀ (files : List String) (p : String),
      p ∈ (walkLoop fsys test walkRec dir files).1 → test p = true := by
  intro files
  induction files with
  | nil => intro p hp; simp [walkLoop] at hp
  | cons file rest ih =>
    intro p hp
    unfold walkLoop at hp
    rcases hk : fsys.kind (pathJoin dir file) with _ | _ | _
    · simp only [hk, List.mem_append] at hp
      rcases hp with h | h
      · rcases ht : test (pathJoin dir file) with _ | _ <;> rw [ht] at h
        · simp at h
        · simp at h
          rw [h]
          exact ht
      · exact ih p h
    · simp only [hk, List.mem_append] at hp
      rcases hp with h | h
      · exact hrec _ p h
      · exact ih p h
    · simp [hk] at hp

/-- The walk loop's thrown flag stays `false` when no entry of this
directory has a failing stat: every error inside a sub-directory's
recursion is caught by the surrounding `try`. -/
lemma walkLoop_no_throw (fsys : FileSys) (test : String → Bool)
    (walkRec : String → List String × Bool) (dir : String) :
    ∀ files : List String,
      (∀ file ∈ files, fsys.kind (pathJoin dir file) ≠ .statErr) →
      (walkLoop fsys test walkRec dir files).2 = false := by
  intro files
  induction files with
  | nil => intro _; simp [walkLoop]
  | cons file rest ih =>
    intro h
    unfold walkLoop
    rcases hk : fsys.kind (pathJoin dir file) with _ | _ | _
    · simp only [hk]
      exact ih (fun f hf => h f (List.mem_cons_of_mem _ hf))
    · simp only [hk]
      exact ih (fun f hf => h f (List.mem_cons_of_mem _ hf))
    · exact absurd hk (h file (List.mem_cons_self _ _))

/-- Membership in the folded output list: an outcome is there iff it was
in the accumulator or in one of the runs. -/
lemma mem_foldl_runOutput :
    ∀ (runs : List (List CompressionOutcome)) (acc : List CompressionOutcome)
      (o : CompressionOutcome),
      o ∈ runs.foldl runOutput acc ↔ o ∈ acc ∨ ∃ run ∈ runs, o ∈ run := by
  intro runs
  induction runs with
  | nil => intro acc o; simp
  | cons r rest ih =>
    intro acc o
    rw [List.foldl_cons, ih]
    constructor
    · rintro (h | ⟨run, hrun, ho⟩)
      · rcases List.mem_append.mp h with h | h
        · exact .inl h
        · exact .inr ⟨r, List.mem_cons_self _ _, h⟩
      · exact .inr ⟨run, List.mem_cons_of_mem _ hrun, ho⟩
    · rintro (h | ⟨run, hrun, ho⟩)
      · exact .inl (List.mem_append.mpr (.inl h))
      · rcases List.mem_cons.mp hrun with rfl | hrun
        · exact .inl (List.mem_append.mpr (.inr ho))
        · exact .inr ⟨run, hrun, ho⟩

/-! ## Claim theorems -/

/-- C6: for every (file, codec) compression attempt, an artifact is
written and an outcome recorded only when the compressed size is strictly
less than the original file's size; when the compressed size is greater
than or equal to the original size, no file is written and no outcome is
recorded — for both the gzip and the Brotli task. -/
theorem size_gate_strict :
    (∀ (file : String) (config : GzipConfig) zg og (env : TaskEnv) (stat : FileStat)
        (content compressed : List Nat),
      env.stat = some stat → env.readResult = .ok content →
      (if config.zlib then zg content config.zlibLevel config.zlibMemLevel
       else og content config) = Except.ok compressed →
      ((stat.size ≤ compressed.length → gzipCompress file config zg og env = noTaskEffects) ∧
       ((gzipCompress file config zg og env).writeAttempted = true ∨
          (gzipCompress file config zg og env).outcome ≠ none →
        compressed.length < stat.size))) ∧
    (∀ (file : String) (config : BrotliConfig) (isZlib : Bool) compress (env : TaskEnv)
        (stat : FileStat) (content compressed : List Nat),
      env.stat = some stat → env.readResult = .ok content →
      compress content
          (if isZlib then .native (brotliNativeConfig config stat.size) else .raw config) =
        some compressed →
      ((stat.size ≤ compressed.length → brotliCompress file config isZlib compress env = noTaskEffects) ∧
       ((brotliCompress file config isZlib compress env).writeAttempted = true ∨
          (brotliCompress file config isZlib compress env).outcome ≠ none →
        compressed.length < stat.size))) := by
  constructor
  · intro file config zg og env stat content compressed hstat hread hcodec
    have hmain : ∀ _ : stat.size ≤ compressed.length,
        gzipCompress file config zg og env = noTaskEffects := by
      intro hle
      unfold gzipCompress
      rw [hstat]
      cases he : config.enabled <;> cases hf : stat.isFile <;>
        cases hs : thresholdSkips config.threshold stat.size <;>
          simp [he, hf, hs, hread, hcodec, handleCompressedData, Nat.not_lt.mpr hle]
    refine ⟨hmain, ?_⟩
    intro h
    rcases Nat.lt_or_ge compressed.length stat.size with hlt | hge
    · exact hlt
    · exfalso
      rcases h with h | h <;> rw [hmain hge] at h <;> simp [noTaskEffects] at h
  · intro file config isZlib compress env stat content compressed hstat hread hcodec
    have hmain : ∀ _ : stat.size ≤ compressed.length,
        brotliCompress file config isZlib compress env = noTaskEffects := by
      intro hle
      unfold brotliCompress
      rw [hstat]
      cases he : config.enabled <;> cases hf : stat.isFile <;>
        cases hs : thresholdSkips config.threshold stat.size <;>
          simp [he, hf, hs, hread, hcodec, Nat.not_lt.mpr hle]
    refine ⟨hmain, ?_⟩
    intro h
    rcases Nat.lt_or_ge compressed.length stat.size with hlt | hge
    · exact hlt
    · exfalso
      rcases h with h | h <;> rw [hmain hge] at h <;> simp [noTaskEffects] at h

/-- Witness for C6: with a 2-byte file and stand-in codecs producing 3
and 2 bytes, neither task writes or records anything. -/
theorem size_gate_strict_witness :
    gzipCompress "a.js" defaultOptions.gzip zlibGzipW zopfliGzipW envTiny = noTaskEffects ∧
    brotliCompress "a.js" defaultOptions.brotli true brotliCompressW envTiny = noTaskEffects :=
  ⟨(size_gate_strict.1 "a.js" defaultOptions.gzip zlibGzipW zopfliGzipW envTiny
      ⟨true, 2⟩ [0, 1] [9, 9, 9] rfl rfl rfl).1 (by decide),
   (size_gate_strict.2 "a.js" defaultOptions.brotli true brotliCompressW envTiny
      ⟨true, 2⟩ [0, 1] [9, 9] rfl rfl rfl).1 (by decide)⟩

/-- C7: for every (file, codec) task with a configured (truthy) threshold
and a file size strictly below it, the task resolves with no outcome and
no write; a file whose size exactly equals the threshold is not skipped
by this gate and proceeds to the read/compress stage (shown by the read
error surfacing as a rejection, which a skipped task never produces). -/
theorem threshold_below_skips_boundary_proceeds :
    (∀ (file : String) (config : GzipConfig) zg og (env : TaskEnv) (stat : FileStat) (t : Nat),
      env.stat = some stat → config.threshold = some t → t ≠ 0 → stat.size < t →
      gzipCompress file config zg og env = noTaskEffects) ∧
    (∀ (file : String) (config : BrotliConfig) (isZlib : Bool) compress (env : TaskEnv)
        (stat : FileStat) (t : Nat),
      env.stat = some stat → config.threshold = some t → t ≠ 0 → stat.size < t →
      brotliCompress file config isZlib compress env = noTaskEffects) ∧
    (∀ (file : String) (config : GzipConfig) zg og (env : TaskEnv) (stat : FileStat) (t : Nat),
      env.stat = some stat → config.enabled = true → stat.isFile = true →
      config.threshold = some t → stat.size = t → env.readResult = .error () →
      (gzipCompress file config zg og env).result = .rejected) ∧
    (∀ (file : String) (config : BrotliConfig) (isZlib : Bool) compress (env : TaskEnv)
        (stat : FileStat) (t : Nat),
      env.stat = some stat → config.enabled = true → stat.isFile = true →
      config.threshold = some t → stat.size = t → env.readResult = .error () →
      (brotliCompress file config isZlib compress env).result = .rejected) := by
  have hskip : ∀ (t : Nat) (size : Nat), t ≠ 0 → size < t →
      thresholdSkips (some t) size = true := by
    intro t size ht hlt
    simp [thresholdSkips, ht, hlt]
  have hnoskip : ∀ t : Nat, thresholdSkips (some t) t = false := by
    intro t
    simp [thresholdSkips]
  refine ⟨?_, ?_, ?_, ?_⟩
  · intro file config zg og env stat t hstat hthr ht hlt
    unfold gzipCompress
    rw [hstat]
    cases he : config.enabled <;> cases hf : stat.isFile <;>
      simp [he, hf, hthr, hskip t stat.size ht hlt]
  · intro file config isZlib compress env stat t hstat hthr ht hlt
    unfold brotliCompress
    rw [hstat]
    cases he : config.enabled <;> cases hf : stat.isFile <;>
      simp [he, hf, hthr, hskip t stat.size ht hlt]
  · intro file config zg og env stat t hstat he hf hthr hsize hread
    unfold gzipCompress
    rw [hstat]
    simp [he, hf, hthr, hsize, hnoskip, hread]
  · intro file config isZlib compress env stat t hstat he hf hthr hsize hread
    unfold brotliCompress
    rw [hstat]
    simp [he, hf, hthr, hsize, hnoskip, hread]

/-- Witness for C7: a 5-byte file under threshold 10 is skipped by both
tasks; a 10-byte file at the boundary proceeds past the gate into the
read for both tasks. -/
theorem threshold_below_skips_boundary_proceeds_witness :
    gzipCompress "a.js" gzipThreshold10 zlibGzipW zopfliGzipW envSmall = noTaskEffects ∧
    brotliCompress "a.js" brotliThreshold10 true brotliCompressW envSmall = noTaskEffects ∧
    (gzipCompress "a.js" gzipThreshold10 zlibGzipW zopfliGzipW envTen).result = .rejected ∧
    (brotliCompress "a.js" brotliThreshold10 true brotliCompressW envTen).result = .rejected :=
  ⟨threshold_below_skips_boundary_proceeds.1 "a.js" gzipThreshold10 zlibGzipW zopfliGzipW
      envSmall ⟨true, 5⟩ 10 rfl rfl (by decide) (by decide),
   threshold_below_skips_boundary_proceeds.2.1 "a.js" brotliThreshold10 true brotliCompressW
      envSmall ⟨true, 5⟩ 10 rfl rfl (by decide) (by decide),
   threshold_below_skips_boundary_proceeds.2.2.1 "a.js" gzipThreshold10 zlibGzipW zopfliGzipW
      envTen ⟨true, 10⟩ 10 rfl rfl rfl rfl rfl rfl,
   threshold_below_skips_boundary_proceeds.2.2.2 "a.js" brotliThreshold10 true brotliCompressW
      envTen ⟨true, 10⟩ 10 rfl rfl rfl rfl rfl rfl⟩

/-- C10: when the configured `threshold` is 0 or absent (falsy in JS),
the threshold gate is disabled: `thresholdSkips` never fires, and a task
on a regular file of any size — including an empty file — proceeds past
the gate to the read (shown by a read error surfacing as a rejection). -/
theorem threshold_falsy_gate_disabled :
    (∀ size : Nat, thresholdSkips none size = false ∧ thresholdSkips (some 0) size = false) ∧
    (∀ (file : String) (config : GzipConfig) zg og (env : TaskEnv) (stat : FileStat),
      env.stat = some stat → config.enabled = true → stat.isFile = true →
      (config.threshold = none ∨ config.threshold = some 0) → env.readResult = .error () →
      (gzipCompress file config zg og env).result = .rejected) ∧
    (∀ (file : String) (config : BrotliConfig) (isZlib : Bool) compress (env : TaskEnv)
        (stat : FileStat),
      env.stat = some stat → config.enabled = true → stat.isFile = true →
      (config.threshold = none ∨ config.threshold = some 0) → env.readResult = .error () →
      (brotliCompress file config isZlib compress env).result = .rejected) := by
  have hfalsy : ∀ (thr : Option Nat) (size : Nat), thr = none ∨ thr = some 0 →
      thresholdSkips thr size = false := by
    intro thr size h
    rcases h with h | h <;> simp [h, thresholdSkips]
  refine ⟨fun size => ⟨hfalsy none size (.inl rfl), hfalsy (some 0) size (.inr rfl)⟩, ?_, ?_⟩
  · intro file config zg og env stat hstat he hf hthr hread
    unfold gzipCompress
    rw [hstat]
    simp [he, hf, hfalsy _ _ hthr, hread]
  · intro file config isZlib compress env stat hstat he hf hthr hread
    unfold brotliCompress
    rw [hstat]
    simp [he, hf, hfalsy _ _ hthr, hread]

/-- Witness for C10: an empty file proceeds to the read both under an
absent threshold (gzip defaults) and under threshold 0 (brotli). -/
theorem threshold_falsy_gate_disabled_witness :
    (gzipCompress "a.js" defaultOptions.gzip zlibGzipW zopfliGzipW envEmptyReadErr).result =
        .rejected ∧
    (brotliCompress "a.js" brotliThreshold0 true brotliCompressW envEmptyReadErr).result =
        .rejected ∧
    thresholdSkips none 0 = false ∧ thresholdSkips (some 0) 0 = false :=
  ⟨threshold_falsy_gate_disabled.2.1 "a.js" defaultOptions.gzip zlibGzipW zopfliGzipW
      envEmptyReadErr ⟨true, 0⟩ rfl rfl rfl (.inl rfl) rfl,
   threshold_falsy_gate_disabled.2.2 "a.js" brotliThreshold0 true brotliCompressW
      envEmptyReadErr ⟨true, 0⟩ rfl rfl rfl (.inr rfl) rfl,
   (threshold_falsy_gate_disabled.1 0).1,
   (threshold_falsy_gate_disabled.1 0).2⟩

/-- C9: in the native parameter block, mode 1 maps to the text constant,
mode 2 to the font constant, and any other value (including absent) to
the generic constant; `enable_context_modeling = false` maps the native
"disable literal context modeling" parameter to true, and any other value
(including absent) maps it to false. -/
theorem brotli_mode_mapping (config : BrotliConfig) (statSize : Nat) :
    (config.mode = some 1 → (brotliNativeConfig config statSize).params.mode = BROTLI_MODE_TEXT) ∧
    (config.mode = some 2 → (brotliNativeConfig config statSize).params.mode = BROTLI_MODE_FONT) ∧
    (config.mode ≠ some 1 → config.mode ≠ some 2 →
      (brotliNativeConfig config statSize).params.mode = BROTLI_MODE_GENERIC) ∧
    ((brotliNativeConfig config statSize).params.disableLiteralContextModeling = true ↔
      config.enable_context_modeling = some false) := by
  rw [brotliNativeConfig_eq]
  refine ⟨fun h => ?_, fun h => ?_, fun h1 h2 => ?_, ?_⟩
  · simp [h]
  · simp [h]
  · simp [h1, h2]
  · simp

/-- Witness for C9: the three mode values and the inverted context
modeling flag at concrete configurations. -/
theorem brotli_mode_mapping_witness :
    (brotliNativeConfig { defaultOptions.brotli with mode := some 1 } 100).params.mode =
        BROTLI_MODE_TEXT ∧
    (brotliNativeConfig { defaultOptions.brotli with mode := some 2 } 100).params.mode =
        BROTLI_MODE_FONT ∧
    (brotliNativeConfig { defaultOptions.brotli with mode := none } 100).params.mode =
        BROTLI_MODE_GENERIC ∧
    (brotliNativeConfig { defaultOptions.brotli with enable_context_modeling := some false }
        100).params.disableLiteralContextModeling = true :=
  ⟨(brotli_mode_mapping { defaultOptions.brotli with mode := some 1 } 100).1 rfl,
   (brotli_mode_mapping { defaultOptions.brotli with mode := some 2 } 100).2.1 rfl,
   (brotli_mode_mapping { defaultOptions.brotli with mode := none } 100).2.2.1
      (by decide) (by decide),
   ((brotli_mode_mapping { defaultOptions.brotli with enable_context_modeling := some false }
      100).2.2.2).mpr rfl⟩

/-- C3: evaluation at the failing input.  A brotli sub-config explicitly
providing `lgblock = 5`, `nPostfix = 2` and `nDirect = 8` still produces
a native parameter block without any of the three optional parameters:
the source reassigns `config` to the fresh `{ params: ... }` object before
testing `config.lgblock`/`config.nPostfix`/`config.nDirect`, so the tests
read `undefined` and the provided values are dropped. -/
theorem brotli_optional_params_dropped :
    brotliAdvanced.lgblock = some 5 ∧ brotliAdvanced.nPostfix = some 2 ∧
    brotliAdvanced.nDirect = some 8 ∧
    (brotliNativeConfig brotliAdvanced 1000).params.lgblock = none ∧
    (brotliNativeConfig brotliAdvanced 1000).params.nPostfix = none ∧
    (brotliNativeConfig brotliAdvanced 1000).params.nDirect = none :=
  ⟨rfl, rfl, rfl, rfl, rfl, rfl⟩

/-- C8: in directory-walk discovery, every yielded path matches the
pattern, and when the root listing succeeds and no immediate entry's stat
fails, the walk never throws — every listing or recursion error strictly
inside a sub-directory of the root is caught there and that subtree is
skipped while discovery continues. -/
theorem walk_matches_and_subtree_errors_caught :
    (∀ (fsys : FileSys) (test : String → Bool) (fuel : Nat) (dir : String) (p : String),
      p ∈ (filesToCompress fsys test fuel dir).1 → test p = true) ∧
    (∀ (fsys : FileSys) (test : String → Bool) (fuel : Nat) (root : String)
        (files : List String),
      fsys.listing root = some files →
      (∀ file ∈ files, fsys.kind (pathJoin root file) ≠ .statErr) →
      (filesToCompress fsys test (fuel + 1) root).2 = false) := by
  constructor
  · intro fsys test fuel
    induction fuel with
    | zero => intro dir p hp; simp [filesToCompress] at hp
    | succ n ih =>
      intro dir p hp
      unfold filesToCompress at hp
      cases hl : fsys.listing dir <;> rw [hl] at hp
      · simp at hp
      · exact walkLoop_yields_match fsys test _ dir (fun f q hq => ih f q hq) _ p hp
  · intro fsys test fuel root files hl hnostat
    unfold filesToCompress
    rw [hl]
    exact walkLoop_no_throw fsys test _ root files hnostat

/-- Witness for C8: a root with a matching file, a non-matching file and
an unreadable sub-directory yields exactly the matching file and throws
nothing. -/
theorem walk_matches_and_subtree_errors_caught_witness :
    (filesToCompress fsysW testW 5 "out").2 = false ∧
    (filesToCompress fsysW testW 5 "out").1 = ["out/a.js"] ∧
    testW "out/a.js" = true :=
  ⟨walk_matches_and_subtree_errors_caught.2 fsysW testW 4 "out" ["a.js", "sub", "b.txt"]
      rfl (by decide),
   by decide,
   walk_matches_and_subtree_errors_caught.1 fsysW testW 5 "out" "out/a.js" (by decide)⟩

/-- Counterexample to C1 as stated: a gzip task whose size gate passed
and whose write fails still records an outcome (the write callback
ignores its error argument), so the shared outcome collection is NOT
unchanged by that task. -/
theorem write_failure_no_outcome_cex :
    (gzipCompress "a.js" defaultOptions.gzip zlibGzipW zopfliGzipW envWriteFail).outcome =
        some { size := 3, file := "a.js.gz", time := 15 } ∧
    envWriteFail.writeSucceeds = false ∧
    (gzipCompress "a.js" defaultOptions.gzip zlibGzipW zopfliGzipW envWriteFail).artifactWritten =
        false :=
  ⟨rfl, rfl, rfl⟩

/-- C1 amended: when the size gate has passed, the task's recorded
outcome and its resolution are the same whether or not the write
succeeds — the write error is ignored, an outcome is recorded anyway and
the task resolves; only the artifact's presence on disk tracks the write
result.  Each task's effects are a function of its own file, config and
environment alone, so sibling tasks are unaffected either way. -/
theorem write_failure_outcome_recorded :
    (∀ (file : String) (config : GzipConfig) zg og (env : TaskEnv) (stat : FileStat)
        (content compressed : List Nat),
      config.enabled = true → env.stat = some stat → stat.isFile = true →
      thresholdSkips config.threshold stat.size = false →
      env.readResult = .ok content →
      (if config.zlib then zg content config.zlibLevel config.zlibMemLevel
       else og content config) = Except.ok compressed →
      compressed.length < stat.size →
      ∀ w : Bool,
        (gzipCompress file config zg og { env with writeSucceeds := w }).outcome =
            some { size := compressed.length, file := file ++ ".gz"
                   time := env.endTime - env.startTime } ∧
        (gzipCompress file config zg og { env with writeSucceeds := w }).result = .resolved ∧
        (gzipCompress file config zg og { env with writeSucceeds := w }).artifactWritten = w) ∧
    (∀ (file : String) (config : BrotliConfig) (isZlib : Bool) compress (env : TaskEnv)
        (stat : FileStat) (content compressed : List Nat),
      config.enabled = true → env.stat = some stat → stat.isFile = true →
      thresholdSkips config.threshold stat.size = false →
      env.readResult = .ok content →
      compress content
          (if isZlib then .native (brotliNativeConfig config stat.size) else .raw config) =
        some compressed →
      compressed.length < stat.size →
      ∀ w : Bool,
        (brotliCompress file config isZlib compress { env with writeSucceeds := w }).outcome =
            some { size := compressed.length, file := file ++ ".br"
                   time := env.endTime - env.startTime } ∧
        (brotliCompress file config isZlib compress { env with writeSucceeds := w }).result =
            .resolved ∧
        (brotliCompress file config isZlib compress { env with writeSucceeds := w }).artifactWritten =
            w) := by
  constructor
  · intro file config zg og env stat content compressed he hstat hf hs hread hcodec hlt w
    unfold gzipCompress
    rw [show ({ env with writeSucceeds := w } : TaskEnv).stat = some stat from hstat]
    simp [he, hf, hs, hread, hcodec, handleCompressedData, hlt]
  · intro file config isZlib compress env stat content compressed he hstat hf hs hread hcodec hlt w
    unfold brotliCompress
    rw [show ({ env with writeSucceeds := w } : TaskEnv).stat = some stat from hstat]
    simp [he, hf, hs, hread, hcodec, hlt]

/-- Witness for C1 amended: both tasks on a 4-byte file with a failing
write still record their outcomes. -/
theorem write_failure_outcome_recorded_witness :
    (gzipCompress "a.js" defaultOptions.gzip zlibGzipW zopfliGzipW
        { envWriteFail with writeSucceeds := false }).outcome =
      some { size := 3, file := "a.js.gz", time := 15 } ∧
    (gzipCompress "a.js" defaultOptions.gzip zlibGzipW zopfliGzipW
        { envWriteFail with writeSucceeds := false }).artifactWritten = false ∧
    (brotliCompress "a.js" defaultOptions.brotli true brotliCompressW
        { envWriteFail with writeSucceeds := false }).outcome =
      some { size := 2, file := "a.js.br", time := 15 } :=
  ⟨(write_failure_outcome_recorded.1 "a.js" defaultOptions.gzip zlibGzipW zopfliGzipW
      envWriteFail ⟨true, 4⟩ [0, 1, 2] [9, 9, 9] rfl rfl rfl rfl rfl rfl (by decide) false).1,
   (write_failure_outcome_recorded.1 "a.js" defaultOptions.gzip zlibGzipW zopfliGzipW
      envWriteFail ⟨true, 4⟩ [0, 1, 2] [9, 9, 9] rfl rfl rfl rfl rfl rfl (by decide) false).2.2,
   (write_failure_outcome_recorded.2 "a.js" defaultOptions.brotli true brotliCompressW
      envWriteFail ⟨true, 4⟩ [0, 1, 2] [9, 9] rfl rfl rfl rfl rfl rfl (by decide) false).1⟩

/-- Counterexample to C2 as stated: with an external configuration
supplying `concurrency: 5`, the bound handed to the queue is still 2 and
differs from the resolved configuration's concurrency. -/
theorem queue_concurrency_ignores_config_cex :
    queueConcurrency (some externalFive) = 2 ∧
    resolvedConcurrencyClaimed (some externalFive) = 5 ∧
    queueConcurrency (some externalFive) ≠ resolvedConcurrencyClaimed (some externalFive) :=
  ⟨rfl, rfl, by decide⟩

/-- C2 amended: the bound handed to the scheduler is always the built-in
default concurrency (2), whatever the external configuration source
returned — line 48 never destructures `concurrency` from the search
result and line 85 reads `defaultOptions.concurrency` directly. -/
theorem queue_concurrency_always_default :
    ∀ searchResult : Option ExternalConfig,
      queueConcurrency searchResult = defaultOptions.concurrency ∧
      queueConcurrency searchResult = 2 :=
  fun _ => ⟨rfl, rfl⟩

/-- Counterexample to C4 as stated: after a first run produced
`outcomeA`, the collection handed to the reporter at the end of a second
run that produced only `outcomeB` is `[outcomeA, outcomeB]` — it contains
`outcomeA`, which the second run did not produce. -/
theorem report_contains_previous_run_cex :
    runOutput (runOutput [] [outcomeA]) [outcomeB] = [outcomeA, outcomeB] ∧
    outcomeA ∈ runOutput (runOutput [] [outcomeA]) [outcomeB] ∧
    outcomeA ∉ [outcomeB] :=
  ⟨rfl, by decide, by decide⟩

/-- C4 amended: the module-level `output` list is never cleared, so after
any sequence of runs the collection handed to the reporter holds exactly
the outcomes of all runs so far — an outcome is in it iff some earlier or
current run produced it. -/
theorem output_accumulates_across_runs :
    ∀ (runs : List (List CompressionOutcome)) (o : CompressionOutcome),
      o ∈ outputAfterRuns runs ↔ ∃ run ∈ runs, o ∈ run := by
  intro runs o
  rw [outputAfterRuns, mem_foldl_runOutput]
  simp

/-- Counterexample to C5 as stated: with a call-site `threshold` of 100
and a discovered gzip sub-config carrying `threshold: 50`, the merged
config's threshold is 50, not the 100 the claimed precedence (call-site
over discovered) would give. -/
theorem discovered_threshold_overrides_cex :
    (gzipCallConfig (some 100) gzipUserFifty).threshold = some 50 ∧
    (gzipCallConfigClaimed (some 100) gzipUserFifty).threshold = some 100 ∧
    (gzipCallConfig (some 100) gzipUserFifty).threshold ≠
      (gzipCallConfigClaimed (some 100) gzipUserFifty).threshold :=
  ⟨rfl, rfl, by decide⟩

/-- C5 amended: the configuration passed to the codec is the layered
merge with precedence built-in defaults < call-site `threshold` <
discovered sub-config.  A field absent from the discovered sub-config
falls back to the call-site threshold (for `threshold`) or the built-in
default (other fields); a field the discovered sub-config carries —
including its own `threshold` — wins. -/
theorem merge_precedence_defaults_callsite_discovered :
    ∀ (thr : Option Nat) (user : GzipUserConfig) (buser : BrotliUserConfig),
      (user.threshold = none → (gzipCallConfig thr user).threshold = thr) ∧
      (∀ t, user.threshold = some t → (gzipCallConfig thr user).threshold = some t) ∧
      (user.zlib = none → (gzipCallConfig thr user).zlib = defaultOptions.gzip.zlib) ∧
      (∀ b, user.zlib = some b → (gzipCallConfig thr user).zlib = b) ∧
      (buser.threshold = none → (brotliCallConfig thr buser).threshold = thr) ∧
      (∀ t, buser.threshold = some t → (brotliCallConfig thr buser).threshold = some t) ∧
      (buser.quality = none → (brotliCallConfig thr buser).quality = defaultOptions.brotli.quality) ∧
      (∀ q, buser.quality = some q → (brotliCallConfig thr buser).quality = q) := by
  intro thr user buser
  refine ⟨fun h => ?_, fun t h => ?_, fun h => ?_, fun b h => ?_, fun h => ?_, fun t h => ?_,
    fun h => ?_, fun q h => ?_⟩ <;>
    simp [gzipCallConfig, brotliCallConfig, gzipSpread, brotliSpread, h]

/-- Witness for C5 amended: at concrete layers, a discovered threshold
wins over the call site, an absent one falls back to the call site, and
an absent quality falls back to the built-in default. -/
theorem merge_precedence_defaults_callsite_discovered_witness :
    (gzipCallConfig (some 100) gzipUserFifty).threshold = some 50 ∧
    (gzipCallConfig (some 100) {}).threshold = some 100 ∧
    (brotliCallConfig (some 3) {}).quality = 11 :=
  ⟨(merge_precedence_defaults_callsite_discovered (some 100) gzipUserFifty {}).2.1 50 rfl,
   (merge_precedence_defaults_callsite_discovered (some 100) {} {}).1 rfl,
   (merge_precedence_defaults_callsite_discovered (some 3) {} {}).2.2.2.2.2.2.1 rfl⟩

end ParcelPluginCompress
